import Mathlib

/-!
# Verification of the data-access layer of the University Services dashboard

Shallow embedding of `src/app.py`: the data model held in the external
relational store, the SQL statements the application issues, and the two
data-access functions `run_query` (Command Executor) and `fetch_data`
(Query Fetcher), together with the UI event handlers the claims refer to.

External nondeterminism (connectivity failures, server-side errors, the
connection dropping) is modelled by explicit fault environments (`WriteEnv`,
`FetchEnv`) passed to the embedded functions; the Python functions read this
nondeterminism from the outside world.  Monetary values are modelled as `ℚ`
(the store's DECIMAL type is exact decimal arithmetic).
-/

/-- A scalar value bound to a positional `%s` placeholder, or stored in a
column: strings (ids, names, dates), integers (auto-increment keys, counts),
decimals (costs), and SQL NULL. -/
inductive Value where
  | str : String → Value
  | nat : Nat → Value
  | num : ℚ → Value
  | null : Value
deriving DecidableEq, Repr

/-- A row of `Students(student_id PK, first_name, last_name, email)`. -/
structure Student where
  student_id : String
  first_name : String
  last_name : String
  email : String
deriving DecidableEq, Repr

/-- A row of `Services(service_id PK, service_name, base_cost)`. -/
structure Service where
  service_id : Nat
  service_name : String
  base_cost : ℚ
deriving DecidableEq, Repr

/-- A row of `StudentServices(id PK, student_id FK, service_id FK,
service_date, service_cost)`. -/
structure StudentService where
  id : Nat
  student_id : String
  service_id : Nat
  service_date : String
  service_cost : ℚ
deriving DecidableEq, Repr

/-- The state of the relational store consumed by the application. -/
structure DBState where
  students : List Student
  services : List Service
  studentServices : List StudentService
deriving DecidableEq, Repr

/-- The mutating statements the application issues through `run_query`
(src/app.py lines 194, 205, 225, 256), identified by their SQL text;
the positional parameters are passed separately. -/
inductive Stmt where
  | insertStudent     -- INSERT INTO Students (student_id, first_name, last_name, email) VALUES (%s, %s, %s, %s)
  | deleteStudent     -- DELETE FROM Students WHERE student_id = %s
  | insertService     -- INSERT INTO Services (service_name, base_cost) VALUES (%s, %s)
  | insertAssignment  -- INSERT INTO StudentServices (student_id, service_id, service_date, service_cost) VALUES (%s, %s, %s, %s)
deriving DecidableEq, Repr

/-- Number of `%s` placeholders in each statement's SQL text. -/
def placeholderCount : Stmt → Nat
  | .insertStudent => 4
  | .deleteStudent => 1
  | .insertService => 2
  | .insertAssignment => 4

/-- Errors raised by the store / driver (`mysql.connector.Error`). -/
inductive DBErr where
  | badParams      -- parameter list does not fit the statement (ProgrammingError)
  | duplicateKey   -- primary-key uniqueness violated (IntegrityError)
  | fkViolation    -- referential integrity violated (IntegrityError)
  | external       -- connectivity / server-side failure
deriving DecidableEq, Repr

/-- Descriptive message for a store error (`st.error(f"Error: {err}")`). -/
def errText : DBErr → String
  | .badParams => "Error: wrong parameters for statement"
  | .duplicateKey => "Error: duplicate key"
  | .fkViolation => "Error: foreign key constraint fails"
  | .external => "Error: server error"

/-- Next auto-increment id for `Services`. -/
def nextServiceId (db : DBState) : Nat :=
  (db.services.map (·.service_id)).foldr max 0 + 1

/-- Next auto-increment id for `StudentServices`. -/
def nextAssignmentId (db : DBState) : Nat :=
  (db.studentServices.map (·.id)).foldr max 0 + 1

/-- The store's semantics of one mutating statement: the new state and the
number of rows affected, or the error the store raises.  Primary-key
uniqueness on `Students` and referential integrity of `StudentServices`
are enforced by the store (spec §3); a DELETE of a key that is not present
affects zero rows and is not an error. -/
def applyStmt (stmt : Stmt) (params : List Value) (db : DBState) :
    Except DBErr (DBState × Nat) :=
  match stmt, params with
  | .insertStudent, [.str sid, .str fn, .str ln, .str em] =>
    if db.students.any (fun s => s.student_id == sid) then
      .error .duplicateKey
    else
      .ok ({ db with students := db.students ++ [⟨sid, fn, ln, em⟩] }, 1)
  | .deleteStudent, [.str sid] =>
    let victims := db.students.filter (fun s => s.student_id == sid)
    if victims.length ≠ 0 ∧ db.studentServices.any (fun a => a.student_id == sid) then
      .error .fkViolation
    else
      .ok ({ db with students := db.students.filter (fun s => !(s.student_id == sid)) },
           victims.length)
  | .insertService, [.str name, .num cost] =>
    .ok ({ db with services := db.services ++ [⟨nextServiceId db, name, cost⟩] }, 1)
  | .insertAssignment, [.str sid, .nat svc, .str d, .num cost] =>
    if db.students.any (fun s => s.student_id == sid) &&
       db.services.any (fun v => v.service_id == svc) then
      .ok ({ db with studentServices :=
              db.studentServices ++ [⟨nextAssignmentId db, sid, svc, d, cost⟩] }, 1)
    else
      .error .fkViolation
  | _, _ => .error .badParams

/-- What became of a resource (connection / cursor) acquired during a call,
observed when the call returns. -/
inductive ConnFate where
  | notOpened        -- never acquired (e.g. `get_connection()` itself raised)
  | closedByClient   -- `close()` was called on it
  | droppedByServer  -- the server side terminated it (`is_connected()` false)
  | leftOpen         -- still open and alive: leaked
deriving DecidableEq, Repr

/-- A resource is released iff it is not left open and alive. -/
def ConnFate.released : ConnFate → Bool
  | .leftOpen => false
  | _ => true

/-- Fault environment for one `run_query` call: which of the externally
fallible steps succeed.  `unexpected` models a non-`mysql.connector.Error`
exception raised by `cursor.execute` (e.g. an unencodable parameter object),
which the `except` clause does not catch. -/
structure WriteEnv where
  connectOk : Bool   -- `get_connection()` succeeds
  execOk : Bool      -- no external (connectivity/server) failure during execute
  commitOk : Bool    -- `conn.commit()` succeeds
  connAlive : Bool   -- `conn.is_connected()` still true in the `finally` block
  unexpected : Bool  -- `cursor.execute` raises a non-connector exception
deriving DecidableEq, Repr

/-- The fault-free write environment. -/
def writeOk : WriteEnv := ⟨true, true, true, true, false⟩

/-- Observable outcome of one `run_query` call. -/
structure RunResult where
  store : DBState           -- committed store contents after the call
  affected : Nat            -- rows affected by the executed statement
  success : Bool            -- the "Operation successful!" toast was shown
  errorMsg : Option String  -- the `st.error` message shown, if any
  raised : Bool             -- an uncaught exception propagated to the caller
  connFate : ConnFate
  cursorFate : ConnFate
deriving DecidableEq, Repr

/-- Fate of the connection in the `finally` block of `run_query`:
`conn.close()` is guarded by `conn.is_connected()`. -/
def connFateAfter (env : WriteEnv) : ConnFate :=
  if env.connAlive then .closedByClient else .droppedByServer

/-- `run_query(query, params)` (src/app.py lines 52-67): open a connection
and a cursor, execute the parameterized statement, commit, toast success;
a `mysql.connector.Error` anywhere in that sequence is caught and shown via
`st.error`; the `finally` block closes the cursor if one was created and the
connection if it was created and is still connected.  Changes become part of
the committed store only at `conn.commit()` (autocommit is off); a connection
closed without commit rolls its work back. -/
def run_query (env : WriteEnv) (stmt : Stmt) (params : List Value) (db : DBState) :
    RunResult :=
  if env.connectOk = false then
    -- get_connection() raised: caught; conn and cursor were never assigned
    { store := db, affected := 0, success := false,
      errorMsg := some (errText .external), raised := false,
      connFate := .notOpened, cursorFate := .notOpened }
  else if env.unexpected then
    -- non-connector exception: not caught, but `finally` still runs
    { store := db, affected := 0, success := false, errorMsg := none,
      raised := true, connFate := connFateAfter env, cursorFate := .closedByClient }
  else if env.execOk = false then
    { store := db, affected := 0, success := false,
      errorMsg := some (errText .external), raised := false,
      connFate := connFateAfter env, cursorFate := .closedByClient }
  else
    match applyStmt stmt params db with
    | .error e =>
      -- the statement itself raised: nothing was committed
      { store := db, affected := 0, success := false,
        errorMsg := some (errText e), raised := false,
        connFate := connFateAfter env, cursorFate := .closedByClient }
    | .ok (db', n) =>
      if env.commitOk = false then
        -- commit raised: uncommitted work is rolled back on close
        { store := db, affected := n, success := false,
          errorMsg := some (errText .external), raised := false,
          connFate := connFateAfter env, cursorFate := .closedByClient }
      else
        { store := db', affected := n, success := true, errorMsg := none,
          raised := false, connFate := connFateAfter env, cursorFate := .closedByClient }

/-- An encoded result row, as materialized by `pd.read_sql`: a mapping from
column name to value, in column order. -/
abbrev Row := List (String × Value)

/-- SQL `LIKE` pattern matching over backslash-free patterns: `%` matches any
(possibly empty) character sequence, `_` matches exactly one character, any
other pattern character matches itself. -/
def likeMatch : List Char → List Char → Bool
  | [], s => s.isEmpty
  | p :: ps, s =>
    if p = '%' then
      likeMatch ps s ||
        (match s with
         | [] => false
         | _ :: ss => likeMatch (p :: ps) ss)
    else
      match s with
      | [] => false
      | c :: ss => (p = '_' || p = c) && likeMatch ps ss
termination_by p s => (p.length, s.length)

/-- A row of the view `vw_student_services`. -/
structure HistoryRow where
  student_id : String
  student_name : String
  service_name : String
  service_date : String
  service_cost : ℚ
deriving DecidableEq, Repr

/-- Modelled from the spec: the view `vw_student_services` is defined in the
external relational store and its DDL is not part of src/; per spec §3/§6 it
is "a joined student/service/assignment listing" with columns
`(student_id, student_name, service_name, service_date, service_cost)`.
Each assignment is joined with its student (whose display name, as elsewhere
in the app, is first name, space, last name) and its service. -/
def vw_student_services (db : DBState) : List HistoryRow :=
  db.studentServices.filterMap fun a =>
    match db.students.find? (fun s => s.student_id == a.student_id),
          db.services.find? (fun v => v.service_id == a.service_id) with
    | some s, some v =>
      some ⟨s.student_id, s.first_name ++ " " ++ s.last_name,
            v.service_name, a.service_date, a.service_cost⟩
    | _, _ => none

/-- The distinct elements of a list, first occurrence kept, in order. -/
def dedupFirst : List String → List String
  | [] => []
  | x :: xs => x :: (dedupFirst xs).filter (fun y => y ≠ x)

/-- Modelled from the spec: the view `vw_total_cost_per_student` is defined in
the external relational store and its DDL is not part of src/; per spec §3/§6
it is "a per-student total-cost aggregation" with columns
`(student_id, total_cost)`: for each student appearing in `StudentServices`,
the sum of the `service_cost` values of their assignments. -/
def vw_total_cost_per_student (db : DBState) : List (String × ℚ) :=
  (dedupFirst (db.studentServices.map (·.student_id))).map fun i =>
    (i, ((db.studentServices.filter (fun a => a.student_id == i)).map
          (·.service_cost)).sum)

/-- SQL `AVG(service_cost)` over `StudentServices`: NULL over an empty table,
otherwise the exact decimal mean. -/
def sqlAvgCost (ss : List StudentService) : Value :=
  if ss.isEmpty then .null
  else .num (((ss.map (·.service_cost)).sum) / (ss.length : ℚ))

/-- The read statements the application issues through `fetch_data`,
identified by their SQL text; positional parameters passed separately. -/
inductive Query where
  | countStudents        -- SELECT COUNT(*) as count FROM Students
  | countStudentServices -- SELECT COUNT(*) as count FROM StudentServices
  | avgServiceCost       -- SELECT AVG(service_cost) as avg_cost FROM StudentServices
  | totalCostView        -- SELECT * FROM vw_total_cost_per_student
  | servicePopularity    -- the GROUP BY usage-count join
  | historyAll           -- SELECT * FROM vw_student_services
  | historyLike          -- SELECT * FROM vw_student_services WHERE student_name LIKE %s
  | allStudents          -- SELECT * FROM Students
  | allServices          -- SELECT * FROM Services
  | studentsBasic        -- SELECT student_id, first_name, last_name FROM Students
  | servicesBasic        -- SELECT service_id, service_name, base_cost FROM Services
deriving DecidableEq, Repr

/-- Encoding of a `vw_student_services` row as a result row. -/
def encodeHistoryRow (r : HistoryRow) : Row :=
  [("student_id", .str r.student_id), ("student_name", .str r.student_name),
   ("service_name", .str r.service_name), ("service_date", .str r.service_date),
   ("service_cost", .num r.service_cost)]

/-- Encoding of a `Students` row as a result row. -/
def encodeStudent (s : Student) : Row :=
  [("student_id", .str s.student_id), ("first_name", .str s.first_name),
   ("last_name", .str s.last_name), ("email", .str s.email)]

/-- Encoding of a `Services` row as a result row. -/
def encodeService (v : Service) : Row :=
  [("service_id", .nat v.service_id), ("service_name", .str v.service_name),
   ("base_cost", .num v.base_cost)]

/-- The store's semantics of one read statement: the result rows, or the
error the store raises (a malformed call). -/
def evalQuery (q : Query) (params : List Value) (db : DBState) :
    Except DBErr (List Row) :=
  match q, params with
  | .countStudents, [] => .ok [[("count", .nat db.students.length)]]
  | .countStudentServices, [] => .ok [[("count", .nat db.studentServices.length)]]
  | .avgServiceCost, [] => .ok [[("avg_cost", sqlAvgCost db.studentServices)]]
  | .totalCostView, [] =>
    .ok ((vw_total_cost_per_student db).map fun r =>
          [("student_id", .str r.1), ("total_cost", .num r.2)])
  | .servicePopularity, [] =>
    let names := db.studentServices.filterMap fun a =>
      (db.services.find? (fun v => v.service_id == a.service_id)).map (·.service_name)
    .ok ((dedupFirst names).map fun n =>
          [("service_name", .str n),
           ("usage_count", .nat (names.filter (fun m => m == n)).length)])
  | .historyAll, [] => .ok ((vw_student_services db).map encodeHistoryRow)
  | .historyLike, [.str pat] =>
    .ok (((vw_student_services db).filter
            (fun r => likeMatch pat.data r.student_name.data)).map encodeHistoryRow)
  | .allStudents, [] => .ok (db.students.map encodeStudent)
  | .allServices, [] => .ok (db.services.map encodeService)
  | .studentsBasic, [] =>
    .ok (db.students.map fun s =>
          [("student_id", .str s.student_id), ("first_name", .str s.first_name),
           ("last_name", .str s.last_name)])
  | .servicesBasic, [] => .ok (db.services.map encodeService)
  | _, _ => .error .badParams

/-- Fault environment for one `fetch_data` call. -/
structure FetchEnv where
  connectOk : Bool  -- `get_connection()` succeeds
  readOk : Bool     -- no external failure during `pd.read_sql`
deriving DecidableEq, Repr

/-- The fault-free read environment. -/
def fetchOk : FetchEnv := ⟨true, true⟩

/-- Observable outcome of one `fetch_data` call. -/
structure FetchResult where
  rows : List Row
  connFate : ConnFate
deriving DecidableEq, Repr

/-- `fetch_data(query, params)` (src/app.py lines 69-76): open a connection,
materialize the result set with `pd.read_sql`, close the connection, return
the table; any exception anywhere is caught and an empty DataFrame returned.
`conn.close()` is inside the `try` block, after the read: when
`get_connection()` raises no connection exists, but when `pd.read_sql`
raises the already-opened connection is not closed. -/
def fetch_data (env : FetchEnv) (q : Query) (params : List Value) (db : DBState) :
    FetchResult :=
  if env.connectOk = false then
    { rows := [], connFate := .notOpened }
  else if env.readOk = false then
    { rows := [], connFate := .leftOpen }
  else
    match evalQuery q params db with
    | .error _ => { rows := [], connFate := .leftOpen }
    | .ok rows => { rows := rows, connFate := .closedByClient }

/-- Python `round` to an integer: banker's rounding (round half to even). -/
def roundHalfEven (q : ℚ) : ℤ :=
  let n := ⌊q⌋
  if q - n < 1/2 then n
  else if 1/2 < q - n then n + 1
  else if n % 2 = 0 then n else n + 1

/-- Python `round(x, 2)`. -/
def pyRound2 (q : ℚ) : ℚ := (roundHalfEven (q * 100) : ℚ) / 100

/-- Python truthiness of a cell fetched from the store: `None` (SQL NULL) and
numeric zero are falsy. -/
def Value.truthy : Value → Bool
  | .null => false
  | .nat n => n ≠ 0
  | .num q => q ≠ 0
  | .str s => s ≠ ""

/-- First value bound to a column name in a row (`df.iloc[0][col]`). -/
def lookupCol (col : String) (r : Row) : Option Value :=
  (r.find? (fun p => p.1 == col)).map (·.2)

/-- The dashboard's "Avg. Service Cost" metric (src/app.py lines 99-100):
fetch `AVG(service_cost)`; if the DataFrame is non-empty and the cell is
truthy, display the cell rounded to 2 decimal places, else display `0.0`. -/
def avg_cost_metric (env : FetchEnv) (db : DBState) : ℚ :=
  match (fetch_data env .avgServiceCost [] db).rows with
  | [] => 0
  | row :: _ =>
    match lookupCol "avg_cost" row with
    | some (.num q) => if q ≠ 0 then pyRound2 q else 0
    | _ => 0

/-- The dashboard's "Recent Service History" section (src/app.py lines
152-159): a non-empty (truthy) search term fetches the view filtered by
`student_name LIKE %s` with the term wrapped in `%` wildcards; an empty term
fetches the whole view. -/
def recent_service_history (env : FetchEnv) (search_term : String) (db : DBState) :
    List Row :=
  if search_term ≠ "" then
    (fetch_data env .historyLike [.str ("%" ++ search_term ++ "%")] db).rows
  else
    (fetch_data env .historyAll [] db).rows

/-- Observable outcome of submitting the Add Student form. -/
structure FormResult where
  store : DBState   -- committed store contents afterwards
  issued : Bool     -- the INSERT statement was handed to run_query
  warned : Bool     -- the "Missing details." warning was shown
  success : Bool    -- the success toast was shown
deriving DecidableEq, Repr

/-- The Add Student form handler (src/app.py lines 186-198): on submit, if
both Student ID and First Name are truthy (non-empty), issue the
parameterized INSERT through `run_query`; otherwise show "Missing details."
and execute nothing. -/
def add_student_submit (env : WriteEnv) (s_id f_name l_name email : String)
    (db : DBState) : FormResult :=
  if s_id ≠ "" ∧ f_name ≠ "" then
    let r := run_query env .insertStudent
      [.str s_id, .str f_name, .str l_name, .str email] db
    { store := r.store, issued := true, warned := false, success := r.success }
  else
    { store := db, issued := false, warned := true, success := false }

/-- The Delete Student button handler (src/app.py lines 202-206): if the ID
field is truthy (non-empty), issue the parameterized DELETE through
`run_query`; otherwise nothing happens. -/
def delete_student_click (env : WriteEnv) (del_id : String) (db : DBState) :
    Option RunResult :=
  if del_id ≠ "" then
    some (run_query env .deleteStudent [.str del_id] db)
  else
    none

/-- The Add Service form handler (src/app.py lines 220-227): on submit, issue
the parameterized INSERT through `run_query`. -/
def add_service_submit (env : WriteEnv) (s_name : String) (cost : ℚ)
    (db : DBState) : RunResult :=
  run_query env .insertService [.str s_name, .num cost] db

/-- The Confirm Service Record button handler (src/app.py lines 252-257):
issue the parameterized INSERT into StudentServices with the selected
student, the selected service, the chosen date, and the user-entered
`final_cost` (which defaults to the service's base cost but may be edited)
bound to the `service_cost` column. -/
def confirm_service_record (env : WriteEnv) (s_id : String) (svc_id : Nat)
    (d : String) (final_cost : ℚ) (db : DBState) : RunResult :=
  run_query env .insertAssignment
    [.str s_id, .nat svc_id, .str d, .num final_cost] db

/-- `total_cost` reported for a student by `vw_total_cost_per_student`. -/
def totalCostFor (db : DBState) (sid : String) : Option ℚ :=
  ((vw_total_cost_per_student db).find? (fun r => r.1 == sid)).map (·.2)

/-- Sample student used to instantiate theorems on concrete inputs. -/
def ada : Student := ⟨"S104", "Ada", "Lovelace", "ada@example.com"⟩

/-- The empty store. -/
def dbEmpty : DBState := ⟨[], [], []⟩

/-- A store holding one student and nothing else. -/
def dbAda : DBState := ⟨[ada], [], []⟩

/-- C1: for every (statement, parameters) pair with matching parameter and
placeholder counts, and absent any non-connector exception, `run_query`
either commits exactly the store change prescribed by the statement and
signals success, or — on a database error at any step (connect, execute,
commit, including errors raised by the statement itself) — leaves the
committed store unchanged and surfaces a descriptive error message; there is
no third outcome and no partial effect. -/
theorem run_query_atomic_or_error (env : WriteEnv) (stmt : Stmt)
    (params : List Value) (db : DBState)
    (_hcount : params.length = placeholderCount stmt)
    (hexp : env.unexpected = false) :
    ((run_query env stmt params db).success = true ∧
     (run_query env stmt params db).errorMsg = none ∧
     ∃ n, applyStmt stmt params db =
            .ok ((run_query env stmt params db).store, n) ∧
          (run_query env stmt params db).affected = n)
    ∨ ((run_query env stmt params db).success = false ∧
       (∃ m, (run_query env stmt params db).errorMsg = some m) ∧
       (run_query env stmt params db).store = db) := by
  rcases env with ⟨c, e, k, a, u⟩
  simp only at hexp
  subst hexp
  rcases hq : applyStmt stmt params db with e' | ⟨db', n⟩ <;>
    cases c <;> cases e <;> cases k <;>
      simp [run_query, hq]

/-- C1 witness: inserting Ada into the empty store with the fault-free
environment instantiates the hypotheses and the disjunction. -/
theorem run_query_atomic_or_error_witness :
    ([Value.str "S104", Value.str "Ada", Value.str "Lovelace",
      Value.str "ada@example.com"].length = placeholderCount .insertStudent) ∧
    (writeOk.unexpected = false) ∧
    (((run_query writeOk .insertStudent
        [.str "S104", .str "Ada", .str "Lovelace", .str "ada@example.com"]
        dbEmpty).success = true ∧
      (run_query writeOk .insertStudent
        [.str "S104", .str "Ada", .str "Lovelace", .str "ada@example.com"]
        dbEmpty).errorMsg = none ∧
      ∃ n, applyStmt .insertStudent
            [.str "S104", .str "Ada", .str "Lovelace", .str "ada@example.com"]
            dbEmpty =
              .ok ((run_query writeOk .insertStudent
                [.str "S104", .str "Ada", .str "Lovelace", .str "ada@example.com"]
                dbEmpty).store, n) ∧
           (run_query writeOk .insertStudent
             [.str "S104", .str "Ada", .str "Lovelace", .str "ada@example.com"]
             dbEmpty).affected = n)
     ∨ ((run_query writeOk .insertStudent
          [.str "S104", .str "Ada", .str "Lovelace", .str "ada@example.com"]
          dbEmpty).success = false ∧
        (∃ m, (run_query writeOk .insertStudent
          [.str "S104", .str "Ada", .str "Lovelace", .str "ada@example.com"]
          dbEmpty).errorMsg = some m) ∧
        (run_query writeOk .insertStudent
          [.str "S104", .str "Ada", .str "Lovelace", .str "ada@example.com"]
          dbEmpty).store = dbEmpty)) :=
  ⟨by decide, rfl,
   run_query_atomic_or_error writeOk .insertStudent
     [.str "S104", .str "Ada", .str "Lovelace", .str "ada@example.com"]
     dbEmpty (by decide) rfl⟩

/-- `connFateAfter` never yields a leaked connection. -/
theorem connFateAfter_released (env : WriteEnv) :
    (connFateAfter env).released = true := by
  unfold connFateAfter
  split <;> rfl

/-- C3: on every exit path of `run_query` — success, caught database error at
any step, or an unexpected uncaught exception — both the connection and the
cursor opened by the call are released, never leaked. -/
theorem run_query_releases_resources (env : WriteEnv) (stmt : Stmt)
    (params : List Value) (db : DBState) :
    (run_query env stmt params db).connFate.released = true ∧
    (run_query env stmt params db).cursorFate.released = true := by
  rcases env with ⟨c, e, k, a, u⟩
  rcases hq : applyStmt stmt params db with e' | ⟨db', n⟩ <;>
    cases c <;> cases e <;> cases k <;> cases a <;> cases u <;>
      simp [run_query, hq, connFateAfter, ConnFate.released]

/-- C4: `fetch_data` does NOT close its connection on every exit path: when
`get_connection()` succeeds but `pd.read_sql` raises, the `except` clause
returns an empty DataFrame and `conn.close()` — placed inside the `try`
block after the read — is never executed, so the opened connection is left
open. -/
theorem fetch_data_leaks_connection_on_read_error :
    (fetch_data ⟨true, false⟩ .historyAll [] dbEmpty).rows = [] ∧
    (fetch_data ⟨true, false⟩ .historyAll [] dbEmpty).connFate = .leftOpen ∧
    (fetch_data ⟨true, false⟩ .historyAll [] dbEmpty).connFate.released = false := by
  refine ⟨rfl, rfl, rfl⟩

/-- C2: `fetch_data` is a total function of its inputs (it propagates no
exception): on a fault-free call whose query the store evaluates, it returns
exactly the store's current result set; on any failure — connectivity
(`connectOk = false`), a failing read, or a malformed query the store
rejects — it returns the empty table; and a failing call is observationally
identical to a legitimate fetch over an empty store, so the caller cannot
distinguish the two. -/
theorem fetch_data_result_or_empty (env : FetchEnv) (q : Query)
    (params : List Value) (db : DBState) :
    (∀ rs, env.connectOk = true → env.readOk = true →
        evalQuery q params db = .ok rs →
        (fetch_data env q params db).rows = rs)
    ∧ ((env.connectOk = false ∨ env.readOk = false ∨
        (∃ er, evalQuery q params db = .error er)) →
        (fetch_data env q params db).rows = [])
    ∧ ((fetch_data ⟨true, false⟩ q params db).rows =
        (fetch_data fetchOk .allStudents [] dbEmpty).rows) := by
  refine ⟨?_, ?_, rfl⟩
  · intro rs hc hr hq
    rcases env with ⟨c, r⟩
    simp only at hc hr
    subst hc; subst hr
    simp [fetch_data, hq]
  · intro h
    rcases env with ⟨c, r⟩
    cases c with
    | false => simp [fetch_data]
    | true =>
      cases r with
      | false => simp [fetch_data]
      | true =>
        rcases h with h | h | ⟨er, her⟩
        · simp at h
        · simp at h
        · simp [fetch_data, her]

/-- C2 witness: a fault-free fetch of all students over the one-student store
returns exactly that student's row. -/
theorem fetch_data_result_or_empty_witness :
    (fetchOk.connectOk = true) ∧ (fetchOk.readOk = true) ∧
    (evalQuery .allStudents [] dbAda = .ok [encodeStudent ada]) ∧
    (fetch_data fetchOk .allStudents [] dbAda).rows = [encodeStudent ada] :=
  ⟨rfl, rfl, rfl,
   (fetch_data_result_or_empty fetchOk .allStudents [] dbAda).1
     [encodeStudent ada] rfl rfl rfl⟩

/-- In the fault-free environment, `run_query` commits exactly the state that
the statement's store semantics prescribes. -/
theorem run_query_ok (stmt : Stmt) (params : List Value) (db db' : DBState)
    (n : Nat) (h : applyStmt stmt params db = .ok (db', n)) :
    run_query writeOk stmt params db =
      { store := db', affected := n, success := true, errorMsg := none,
        raised := false, connFate := .closedByClient,
        cursorFate := .closedByClient } := by
  simp [run_query, writeOk, h, connFateAfter]

/-- The store semantics of `DELETE FROM Students WHERE student_id = %s` when
no assignment references the identifier: the matching rows are removed and
counted, with no error — whether or not any row matches. -/
theorem applyStmt_delete (db : DBState) (sid : String)
    (hfk : ∀ a ∈ db.studentServices, a.student_id ≠ sid) :
    applyStmt .deleteStudent [.str sid] db =
      .ok ({ db with students := db.students.filter (fun s => !(s.student_id == sid)) },
           (db.students.filter (fun s => s.student_id == sid)).length) := by
  have hany : db.studentServices.any (fun a => a.student_id == sid) = false := by
    simp only [List.any_eq_false]
    intro a ha
    simpa using hfk a ha
  simp [applyStmt, hany]

/-- C5: with a non-empty ID field and a fault-free environment, clicking
Delete for an identifier held by exactly one (unreferenced) student succeeds
with one row affected; clicking Delete again for the same identifier is a
no-op: success is signaled, no error is shown, zero rows are affected and
the store is unchanged.  Likewise, deleting an identifier no student holds
signals success with zero rows affected and leaves the store unchanged. -/
theorem delete_student_twice_idempotent (db : DBState) (del_id : String)
    (hid : del_id ≠ "")
    (hone : (db.students.filter (fun s => s.student_id == del_id)).length = 1)
    (hfk : ∀ a ∈ db.studentServices, a.student_id ≠ del_id) :
    (delete_student_click writeOk del_id db
        = some (run_query writeOk .deleteStudent [.str del_id] db)) ∧
    (run_query writeOk .deleteStudent [.str del_id] db).success = true ∧
    (run_query writeOk .deleteStudent [.str del_id] db).errorMsg = none ∧
    (run_query writeOk .deleteStudent [.str del_id] db).affected = 1 ∧
    ((run_query writeOk .deleteStudent [.str del_id]
        (run_query writeOk .deleteStudent [.str del_id] db).store).success = true ∧
     (run_query writeOk .deleteStudent [.str del_id]
        (run_query writeOk .deleteStudent [.str del_id] db).store).errorMsg = none ∧
     (run_query writeOk .deleteStudent [.str del_id]
        (run_query writeOk .deleteStudent [.str del_id] db).store).affected = 0 ∧
     (run_query writeOk .deleteStudent [.str del_id]
          (run_query writeOk .deleteStudent [.str del_id] db).store).store
        = (run_query writeOk .deleteStudent [.str del_id] db).store) ∧
    (∀ db2 : DBState,
      (db2.students.filter (fun s => s.student_id == del_id)).length = 0 →
      (run_query writeOk .deleteStudent [.str del_id] db2).success = true ∧
      (run_query writeOk .deleteStudent [.str del_id] db2).errorMsg = none ∧
      (run_query writeOk .deleteStudent [.str del_id] db2).affected = 0 ∧
      (run_query writeOk .deleteStudent [.str del_id] db2).store = db2) := by
  have key : ∀ dbx : DBState, (∀ a ∈ dbx.studentServices, a.student_id ≠ del_id) →
      run_query writeOk .deleteStudent [.str del_id] dbx =
        { store := { dbx with students :=
                      dbx.students.filter (fun s => !(s.student_id == del_id)) },
          affected := (dbx.students.filter (fun s => s.student_id == del_id)).length,
          success := true, errorMsg := none, raised := false,
          connFate := .closedByClient, cursorFate := .closedByClient } :=
    fun dbx hx => run_query_ok _ _ _ _ _ (applyStmt_delete dbx del_id hx)
  have h1 := key db hfk
  have nofilter : ∀ (l : List Student),
      (l.filter (fun s => s.student_id == del_id)).length = 0 →
      l.filter (fun s => !(s.student_id == del_id)) = l := by
    intro l h0
    rw [List.length_eq_zero] at h0
    rw [List.filter_eq_self]
    intro a ha
    by_contra hcon
    have : a ∈ l.filter (fun s => s.student_id == del_id) := by
      rw [List.mem_filter]
      exact ⟨ha, by simpa using hcon⟩
    simp [h0] at this
  refine ⟨?_, ?_, ?_, ?_, ?_, ?_⟩
  · simp [delete_student_click, hid]
  · rw [h1]
  · rw [h1]
  · rw [h1, hone]
  · have hfk1 : ∀ a ∈ ((run_query writeOk .deleteStudent [.str del_id] db).store).studentServices,
        a.student_id ≠ del_id := by
      rw [h1]; exact hfk
    have h2 := key _ hfk1
    have hvict0 : ((db.students.filter (fun s => !(s.student_id == del_id))).filter
        (fun s => s.student_id == del_id)).length = 0 := by
      simp only [List.filter_filter]
      rw [List.length_eq_zero, List.filter_eq_nil_iff]
      intro a _
      by_cases hb : a.student_id == del_id <;> simp [hb]
    have hvict : (((run_query writeOk .deleteStudent [.str del_id] db).store).students.filter
        (fun s => s.student_id == del_id)).length = 0 := by
      rw [h1]; exact hvict0
    refine ⟨by rw [h2], by rw [h2], by rw [h2, hvict], ?_⟩
    rw [h2, h1]
    simp [nofilter _ hvict0]
  · intro db2 h0
    by_cases hfk2 : ∀ a ∈ db2.studentServices, a.student_id ≠ del_id
    · have h2 := key db2 hfk2
      refine ⟨by rw [h2], by rw [h2], by rw [h2, h0], ?_⟩
      rw [h2]
      simp [nofilter _ h0]
    · -- even when some assignment references the identifier, a DELETE that
      -- matches no row raises no foreign-key error
      have happ : applyStmt .deleteStudent [.str del_id] db2 =
          .ok ({ db2 with students :=
                  db2.students.filter (fun s => !(s.student_id == del_id)) }, 0) := by
        simp only [applyStmt]
        rw [if_neg, h0]
        intro ⟨hlen, _⟩
        exact hlen h0
      have h2 := run_query_ok _ _ _ _ _ happ
      refine ⟨by rw [h2], by rw [h2], by rw [h2], ?_⟩
      rw [h2]
      simp [nofilter _ h0]

/-- C5 witness: deleting "S104" from the one-student store succeeds and is a
no-op the second time; deleting it from the empty store affects zero rows. -/
theorem delete_student_twice_idempotent_witness :
    ("S104" ≠ "") ∧
    ((dbAda.students.filter (fun s => s.student_id == "S104")).length = 1) ∧
    (∀ a ∈ dbAda.studentServices, a.student_id ≠ "S104") ∧
    ((run_query writeOk .deleteStudent [.str "S104"] dbAda).success = true ∧
     (run_query writeOk .deleteStudent [.str "S104"] dbAda).affected = 1 ∧
     (run_query writeOk .deleteStudent [.str "S104"]
        (run_query writeOk .deleteStudent [.str "S104"] dbAda).store).affected = 0 ∧
     (run_query writeOk .deleteStudent [.str "S104"]
        (run_query writeOk .deleteStudent [.str "S104"] dbAda).store).success = true ∧
     (run_query writeOk .deleteStudent [.str "S104"] dbEmpty).affected = 0) := by
  have h := delete_student_twice_idempotent dbAda "S104" (by decide)
    (by decide) (by intro a ha; simp [dbAda] at ha)
  exact ⟨by decide, by decide, by intro a ha; simp [dbAda] at ha,
    h.2.1, h.2.2.2.1, h.2.2.2.2.1.2.2.1, h.2.2.2.2.1.1,
    (h.2.2.2.2.2 dbEmpty (by decide)).2.2.1⟩

/-- C10: the Add Student form issues its INSERT through `run_query` exactly
when both the Student ID and First Name fields are non-empty (Last Name and
Email may be empty); otherwise no statement is executed, the store is left
unchanged and the "Missing details." warning is shown. -/
theorem add_student_form_guard (env : WriteEnv) (s_id f_name l_name email : String)
    (db : DBState) :
    ((add_student_submit env s_id f_name l_name email db).issued = true
        ↔ (s_id ≠ "" ∧ f_name ≠ "")) ∧
    ((s_id = "" ∨ f_name = "") →
      (add_student_submit env s_id f_name l_name email db).store = db ∧
      (add_student_submit env s_id f_name l_name email db).warned = true ∧
      (add_student_submit env s_id f_name l_name email db).issued = false) ∧
    (s_id ≠ "" → f_name ≠ "" →
      (add_student_submit env s_id f_name l_name email db).warned = false ∧
      (add_student_submit env s_id f_name l_name email db).store =
        (run_query env .insertStudent
          [.str s_id, .str f_name, .str l_name, .str email] db).store) := by
  by_cases h1 : s_id = "" <;> by_cases h2 : f_name = "" <;>
    simp [add_student_submit, h1, h2]

/-- C10 witness: with empty Last Name and Email the INSERT is still issued,
while an empty Student ID blocks it, warns and leaves the store unchanged. -/
theorem add_student_form_guard_witness :
    (add_student_submit writeOk "S104" "Ada" "" "" dbEmpty).issued = true ∧
    ((add_student_submit writeOk "" "Ada" "Lovelace" "a@b.c" dbEmpty).store = dbEmpty ∧
     (add_student_submit writeOk "" "Ada" "Lovelace" "a@b.c" dbEmpty).warned = true ∧
     (add_student_submit writeOk "" "Ada" "Lovelace" "a@b.c" dbEmpty).issued = false) :=
  ⟨(add_student_form_guard writeOk "S104" "Ada" "" "" dbEmpty).1.mpr
      (by exact ⟨by decide, by decide⟩),
   (add_student_form_guard writeOk "" "Ada" "Lovelace" "a@b.c" dbEmpty).2.1
      (Or.inl rfl)⟩

/-- C9: the dashboard's average-service-cost metric displays 0.0 (without
raising) when the StudentServices table is empty — AVG then returns NULL,
which is falsy — and likewise when the fetch itself fails (the empty
DataFrame bypasses the rounding entirely). -/
theorem avg_metric_zero_on_null_or_failure (env : FetchEnv) (db : DBState) :
    (db.studentServices = [] → avg_cost_metric env db = 0) ∧
    ((env.connectOk = false ∨ env.readOk = false) → avg_cost_metric env db = 0) := by
  constructor
  · intro h
    rcases env with ⟨c, r⟩
    cases c <;> cases r <;>
      simp [avg_cost_metric, fetch_data, evalQuery, sqlAvgCost, h, lookupCol]
  · intro h
    rcases env with ⟨c, r⟩
    simp only at h
    rcases h with h | h
    · subst h; simp [avg_cost_metric, fetch_data]
    · subst h; cases c <;> simp [avg_cost_metric, fetch_data]

/-- C9 witness: over the empty store the metric is 0, and with a failing
fetch it is 0 as well. -/
theorem avg_metric_zero_on_null_or_failure_witness :
    (dbEmpty.studentServices = []) ∧ avg_cost_metric fetchOk dbEmpty = 0 ∧
    ((⟨false, true⟩ : FetchEnv).connectOk = false) ∧
    avg_cost_metric ⟨false, true⟩ dbAda = 0 :=
  ⟨rfl, (avg_metric_zero_on_null_or_failure fetchOk dbEmpty).1 rfl, rfl,
   (avg_metric_zero_on_null_or_failure ⟨false, true⟩ dbAda).2 (Or.inl rfl)⟩

/-- C8: with a fault-free fetch, when the assignments' costs are exactly
10.00, 20.00 and 30.00, the dashboard's average-service-cost metric
displays 20.00: AVG yields 60/3 = 20, the truthy cell is rounded to two
decimal places, and rounding leaves 20 unchanged. -/
theorem avg_metric_costs_102030 (db : DBState)
    (h : db.studentServices.map (·.service_cost) = [10, 20, 30]) :
    avg_cost_metric fetchOk db = 20 := by
  have hne : db.studentServices.isEmpty = false := by
    rcases hcase : db.studentServices with _ | ⟨a, t⟩
    · rw [hcase] at h; simp at h
    · rfl
  have hlen : (db.studentServices.length : ℚ) = 3 := by
    have := congrArg List.length h
    rw [List.length_map] at this
    rw [this]; norm_num
  have hsum : (db.studentServices.map (·.service_cost)).sum = 60 := by
    rw [h]; norm_num
  have havg : sqlAvgCost db.studentServices = .num 20 := by
    rw [sqlAvgCost, hne]
    simp only [Bool.false_eq_true, if_false, hsum, hlen]
    norm_num
  have hround : pyRound2 20 = 20 := by
    have hfloor : ⌊(20 * 100 : ℚ)⌋ = 2000 := by norm_num
    rw [pyRound2, roundHalfEven]
    simp only [hfloor]
    norm_num
  simp [avg_cost_metric, fetch_data, fetchOk, evalQuery, havg, lookupCol, hround]

/-- C8 witness: a store with three assignments costing 10, 20 and 30. -/
theorem avg_metric_costs_102030_witness :
    ((⟨[], [], [⟨1, "S1", 1, "2024-01-01", 10⟩, ⟨2, "S1", 1, "2024-01-02", 20⟩,
       ⟨3, "S1", 1, "2024-01-03", 30⟩]⟩ : DBState).studentServices.map
        (·.service_cost) = [10, 20, 30]) ∧
    avg_cost_metric fetchOk
      ⟨[], [], [⟨1, "S1", 1, "2024-01-01", 10⟩, ⟨2, "S1", 1, "2024-01-02", 20⟩,
        ⟨3, "S1", 1, "2024-01-03", 30⟩]⟩ = 20 :=
  ⟨rfl, avg_metric_costs_102030 _ rfl⟩

/-- A `%` wildcard at the head of the pattern matches on `[]` exactly when
the rest of the pattern does. -/
theorem likeMatch_percent_nil (ps : List Char) :
    likeMatch ('%' :: ps) [] = likeMatch ps [] := by
  simp [likeMatch]

/-- A `%` wildcard at the head of the pattern either matches nothing or
consumes one character of the string. -/
theorem likeMatch_percent_cons (ps : List Char) (c : Char) (ss : List Char) :
    likeMatch ('%' :: ps) (c :: ss) =
      (likeMatch ps (c :: ss) || likeMatch ('%' :: ps) ss) := by
  conv_lhs => rw [likeMatch]
  simp

/-- A pattern headed by `%` matches a string iff the rest of the pattern
matches some suffix of the string. -/
theorem likeMatch_percent_iff (ps s : List Char) :
    likeMatch ('%' :: ps) s = true ↔ ∃ t, t <:+ s ∧ likeMatch ps t = true := by
  induction s with
  | nil =>
    rw [likeMatch_percent_nil]
    constructor
    · intro h
      exact ⟨[], List.nil_suffix, h⟩
    · rintro ⟨t, ht, hm⟩
      rw [List.suffix_nil.mp ht] at hm
      exact hm
  | cons c ss ih =>
    rw [likeMatch_percent_cons]
    simp only [Bool.or_eq_true, ih]
    constructor
    · rintro (h | ⟨t, ht, hm⟩)
      · exact ⟨c :: ss, List.suffix_refl _, h⟩
      · exact ⟨t, ht.trans (List.suffix_cons c ss), hm⟩
    · rintro ⟨t, ht, hm⟩
      rcases List.suffix_cons_iff.mp ht with h | h
      · subst h
        exact Or.inl hm
      · exact Or.inr ⟨t, h, hm⟩

/-- A wildcard-free pattern followed by a trailing `%` matches a string iff
the pattern is a prefix of the string. -/
theorem likeMatch_plain_percent_iff (p s : List Char)
    (hp : ∀ c ∈ p, c ≠ '%' ∧ c ≠ '_') :
    likeMatch (p ++ ['%']) s = true ↔ p <+: s := by
  induction p generalizing s with
  | nil =>
    simp only [List.nil_append]
    rw [likeMatch_percent_iff]
    simp only [List.nil_prefix, iff_true]
    exact ⟨[], List.nil_suffix, by simp [likeMatch]⟩
  | cons a ps ih =>
    obtain ⟨ha1, ha2⟩ := hp a (List.mem_cons_self a ps)
    have hp' : ∀ c ∈ ps, c ≠ '%' ∧ c ≠ '_' :=
      fun c hc => hp c (List.mem_cons_of_mem a hc)
    cases s with
    | nil =>
      rw [List.cons_append, likeMatch]
      rw [if_neg ha1]
      simp
    | cons b ss =>
      rw [List.cons_append, likeMatch]
      rw [if_neg ha1]
      simp only [Bool.and_eq_true, Bool.or_eq_true, decide_eq_true_eq,
        List.cons_prefix_cons, ih ss hp']
      constructor
      · rintro ⟨hab | hab, hm⟩
        · exact absurd hab ha2
        · exact ⟨hab, hm⟩
      · rintro ⟨hab, hm⟩
        exact ⟨Or.inr hab, hm⟩

/-- Matching a wildcard-free term wrapped in `%` wildcards on both sides is
exactly substring (infix) containment. -/
theorem likeMatch_wrapped_iff_substring (term s : List Char)
    (hp : ∀ c ∈ term, c ≠ '%' ∧ c ≠ '_') :
    likeMatch ('%' :: (term ++ ['%'])) s = true ↔ term <:+: s := by
  rw [likeMatch_percent_iff]
  constructor
  · rintro ⟨t, ht, hm⟩
    exact List.infix_iff_prefix_suffix.mpr
      ⟨t, (likeMatch_plain_percent_iff term t hp).mp hm, ht⟩
  · intro h
    rcases List.infix_iff_prefix_suffix.mp h with ⟨t, hpre, hsuf⟩
    exact ⟨t, hsuf, (likeMatch_plain_percent_iff term t hp).mpr hpre⟩

/-- The characters of the pattern `f"%{term}%"` the handler builds. -/
theorem wrapped_pattern_data (term : String) :
    ("%" ++ term ++ "%").data = '%' :: (term.data ++ ['%']) := by
  show (("%" ++ term) ++ "%").data = '%' :: (term.data ++ ['%'])
  rw [String.data_append, String.data_append]
  rfl

/-- C6: with a fault-free fetch, a non-empty search term free of `LIKE`
metacharacters (`%`, `_`, `\`) makes the Recent Service History section
return exactly the rows of `vw_student_services` whose `student_name`
contains the term as a substring — the term is passed as a positional
parameter wrapped in `%` wildcards on both sides — while an empty term
returns the entire view unfiltered. -/
theorem recent_history_search_filter (term : String) (db : DBState) :
    (term ≠ "" → (∀ c ∈ term.data, c ≠ '%' ∧ c ≠ '_' ∧ c ≠ '\\') →
      recent_service_history fetchOk term db =
        ((vw_student_services db).filter
          (fun r => decide (term.data <:+: r.student_name.data))).map
          encodeHistoryRow) ∧
    (term = "" →
      recent_service_history fetchOk term db =
        (vw_student_services db).map encodeHistoryRow) := by
  constructor
  · intro hne hmeta
    rw [recent_service_history, if_pos hne]
    have hrows : (fetch_data fetchOk .historyLike [.str ("%" ++ term ++ "%")] db).rows =
        ((vw_student_services db).filter
          (fun r => likeMatch ("%" ++ term ++ "%").data r.student_name.data)).map
          encodeHistoryRow := by
      simp [fetch_data, fetchOk, evalQuery]
    rw [hrows]
    congr 1
    apply List.filter_congr
    intro r _
    rw [wrapped_pattern_data]
    rcases hb : likeMatch ('%' :: (term.data ++ ['%'])) r.student_name.data with _ | _
    · symm
      rw [decide_eq_false_iff_not]
      intro hinf
      have := (likeMatch_wrapped_iff_substring term.data r.student_name.data
        (fun c hc => ⟨(hmeta c hc).1, (hmeta c hc).2.1⟩)).mpr hinf
      rw [hb] at this
      exact Bool.false_ne_true this
    · symm
      rw [decide_eq_true_eq]
      exact (likeMatch_wrapped_iff_substring term.data r.student_name.data
        (fun c hc => ⟨(hmeta c hc).1, (hmeta c hc).2.1⟩)).mp hb
  · intro h
    subst h
    rw [recent_service_history]
    simp [fetch_data, fetchOk, evalQuery]

/-- A store whose view holds one row: Ada Lovelace's Tutoring assignment. -/
def dbHist : DBState :=
  ⟨[ada], [⟨1, "Tutoring", 25⟩], [⟨1, "S104", 1, "2024-01-01", 20⟩]⟩

/-- C6 witness: searching "Love" over the one-row view keeps exactly the row
whose student name "Ada Lovelace" contains "Love". -/
theorem recent_history_search_filter_witness :
    (("Love" : String) ≠ "") ∧
    (∀ c ∈ ("Love" : String).data, c ≠ '%' ∧ c ≠ '_' ∧ c ≠ '\\') ∧
    recent_service_history fetchOk "Love" dbHist =
      ((vw_student_services dbHist).filter
        (fun r => decide (("Love" : String).data <:+: r.student_name.data))).map
        encodeHistoryRow :=
  ⟨by decide, by decide,
   (recent_history_search_filter "Love" dbHist).1 (by decide) (by decide)⟩

/-- `dedupFirst` preserves membership. -/
theorem mem_dedupFirst (l : List String) (a : String) :
    a ∈ dedupFirst l ↔ a ∈ l := by
  induction l with
  | nil => simp [dedupFirst]
  | cons x xs ih =>
    simp only [dedupFirst, List.mem_cons, List.mem_filter, decide_eq_true_eq]
    by_cases hax : a = x
    · simp [hax]
    · simp [hax, ih]

/-- Looking up a key present in a keyed list built by mapping a function
over the keys yields that key's image. -/
theorem find_pair_of_mem (f : String → ℚ) (ids : List String) (sid : String)
    (h : sid ∈ ids) :
    (ids.map (fun i => (i, f i))).find? (fun r => r.1 == sid)
      = some (sid, f sid) := by
  induction ids with
  | nil => simp at h
  | cons a t ih =>
    by_cases ha : a = sid
    · subst ha
      simp [List.find?]
    · rcases List.mem_cons.mp h with h1 | h1
      · exact absurd h1.symm ha
      · simp only [List.map_cons, List.find?]
        rw [show ((a, f a).1 == sid) = false by simpa using ha]
        exact ih h1

/-- For a student who appears in `StudentServices`, the total-cost view
reports the sum of the `service_cost` values of that student's rows. -/
theorem totalCostFor_of_mem (db : DBState) (sid : String)
    (h : sid ∈ db.studentServices.map (·.student_id)) :
    totalCostFor db sid =
      some (((db.studentServices.filter (fun a => a.student_id == sid)).map
              (·.service_cost)).sum) := by
  rw [totalCostFor, vw_total_cost_per_student]
  rw [find_pair_of_mem _ _ _ ((mem_dedupFirst _ _).mpr h)]
  rfl

/-- C7: the ServiceAssignment insert binds the user-entered final cost to
the `service_cost` column, not the service's base cost: starting from any
store containing the chosen student (with no prior assignments for them),
inserting the Service ("Tutoring", base cost 25.00) through the Add Service
form and then confirming a service record for that student with final cost
20.00 makes `vw_total_cost_per_student` report `total_cost = 20.00` (and
not the base cost 25.00) for that student. -/
theorem assignment_records_final_cost (db : DBState) (sid d : String)
    (hs : db.students.any (fun s => s.student_id == sid) = true)
    (hprior : db.studentServices.filter (fun a => a.student_id == sid) = []) :
    (add_service_submit writeOk "Tutoring" 25 db).success = true ∧
    (confirm_service_record writeOk sid (nextServiceId db) d 20
        (add_service_submit writeOk "Tutoring" 25 db).store).success = true ∧
    totalCostFor
      (confirm_service_record writeOk sid (nextServiceId db) d 20
        (add_service_submit writeOk "Tutoring" 25 db).store).store sid
      = some 20 ∧
    totalCostFor
      (confirm_service_record writeOk sid (nextServiceId db) d 20
        (add_service_submit writeOk "Tutoring" 25 db).store).store sid
      ≠ some 25 := by
  have h1 : applyStmt .insertService [.str "Tutoring", .num 25] db =
      .ok ({ db with services :=
              db.services ++ [⟨nextServiceId db, "Tutoring", 25⟩] }, 1) := by
    rw [applyStmt]
  have hr1 := run_query_ok _ _ _ _ _ h1
  have hstore1 : (add_service_submit writeOk "Tutoring" 25 db).store =
      { db with services := db.services ++ [⟨nextServiceId db, "Tutoring", 25⟩] } := by
    rw [add_service_submit, hr1]
  have hsvc : ({ db with services :=
      db.services ++ [⟨nextServiceId db, "Tutoring", 25⟩] } : DBState).services.any
        (fun v => v.service_id == nextServiceId db) = true := by
    simp
  have h2 : applyStmt .insertAssignment
      [.str sid, .nat (nextServiceId db), .str d, .num 20]
      { db with services := db.services ++ [⟨nextServiceId db, "Tutoring", 25⟩] } =
      .ok ({ db with
              services := db.services ++ [⟨nextServiceId db, "Tutoring", 25⟩],
              studentServices := db.studentServices ++
                [⟨nextAssignmentId db, sid, nextServiceId db, d, 20⟩] }, 1) := by
    rw [applyStmt]
    rw [if_pos]
    · rfl
    · rw [show ({ db with services :=
          db.services ++ [⟨nextServiceId db, "Tutoring", 25⟩] } : DBState).students
          = db.students from rfl, hs, hsvc]
      rfl
  have hr2 := run_query_ok _ _ _ _ _ h2
  have hstore2 : (confirm_service_record writeOk sid (nextServiceId db) d 20
      (add_service_submit writeOk "Tutoring" 25 db).store).store =
      { db with
          services := db.services ++ [⟨nextServiceId db, "Tutoring", 25⟩],
          studentServices := db.studentServices ++
            [⟨nextAssignmentId db, sid, nextServiceId db, d, 20⟩] } := by
    rw [confirm_service_record, hstore1, hr2]
  have htot : totalCostFor
      (confirm_service_record writeOk sid (nextServiceId db) d 20
        (add_service_submit writeOk "Tutoring" 25 db).store).store sid = some 20 := by
    rw [hstore2]
    rw [totalCostFor_of_mem]
    · congr 1
      rw [show ({ db with
            services := db.services ++ [⟨nextServiceId db, "Tutoring", 25⟩],
            studentServices := db.studentServices ++
              [⟨nextAssignmentId db, sid, nextServiceId db, d, 20⟩] } : DBState).studentServices
          = db.studentServices ++
              [⟨nextAssignmentId db, sid, nextServiceId db, d, 20⟩] from rfl]
      rw [List.filter_append, hprior]
      simp
    · simp
  refine ⟨?_, ?_, htot, ?_⟩
  · rw [add_service_submit, hr1]
  · rw [confirm_service_record, hstore1, hr2]
  · rw [htot]
    intro hcon
    have : (20 : ℚ) = 25 := Option.some.inj hcon
    norm_num at this

/-- C7 witness: from the one-student store, the scenario yields a total cost
of 20 for "S104". -/
theorem assignment_records_final_cost_witness :
    (dbAda.students.any (fun s => s.student_id == "S104") = true) ∧
    (dbAda.studentServices.filter (fun a => a.student_id == "S104") = []) ∧
    totalCostFor
      (confirm_service_record writeOk "S104" (nextServiceId dbAda) "2024-01-01" 20
        (add_service_submit writeOk "Tutoring" 25 dbAda).store).store "S104"
      = some 20 :=
  ⟨by decide, by decide,
   (assignment_records_final_cost dbAda "S104" "2024-01-01"
     (by decide) (by decide)).2.2.1⟩
